import Mathlib

/-!
Verification development for the Open Floor CLI client
(`openfloor_client.py` / `cli_client.py`).

We shallowly embed the protocol layer of `OpenFloorClient`:
JSON values decoded from the HTTP response body, Python truthiness,
the response-parsing loops of `get_manifest` and `send_message`
(including the three-tier text extraction), the `format_manifest`
pretty-printer, outbound envelope construction, and the transport
wrapper `_send_envelope`.  Fallible paths (Python exceptions caught at
the operation boundary) are modelled with `Option`: `none` plays the
role of an exception reaching the operation's `except` clause.
-/

/-- A JSON value as produced by `json.loads` on the response body.
Objects are association lists with (in all inputs we consider) distinct
keys; numbers are restricted to integers, which is all the client's
parsing code ever distinguishes. -/
inductive Json where
  | null
  | bool (b : Bool)
  | num (n : Int)
  | str (s : String)
  | arr (xs : List Json)
  | obj (fields : List (String × Json))
deriving Repr

/-- Python truthiness (`if x:`) of a decoded JSON value. -/
def Json.truthy : Json → Bool
  | .null => false
  | .bool b => b
  | .num n => n != 0
  | .str s => !s.isEmpty
  | .arr xs => !xs.isEmpty
  | .obj fs => !fs.isEmpty

/-- View a JSON value as a Python dict; `none` models the
`AttributeError`/`TypeError` raised when dict operations hit a
non-dict. -/
def Json.asObj : Json → Option (List (String × Json))
  | .obj fs => some fs
  | _ => none

/-- View a JSON value as a Python list; `none` models the `TypeError`
raised when a non-list is iterated where a list is expected. -/
def Json.asArr : Json → Option (List Json)
  | .arr xs => some xs
  | _ => none

/-- Association-list lookup: `d.get(key)` on a decoded JSON object. -/
def lookupField : List (String × Json) → String → Option Json
  | [], _ => none
  | (k, v) :: rest, key => if k = key then some v else lookupField rest key

/-- `d.get(key, default)`. -/
def getFieldD (fs : List (String × Json)) (key : String) (default : Json) : Json :=
  (lookupField fs key).getD default

/-- `x[0]` on a decoded JSON value: first element of a list, first
character of a string; `none` models the exception raised by indexing
anything else (or an empty string). -/
def pyIndex0 : Json → Option Json
  | .arr (x :: _) => some x
  | .str s =>
    match s.data with
    | c :: _ => some (.str (String.singleton c))
    | [] => none
  | _ => none

/-- `repr` of a Python string: quote (single quotes, switching to double
quotes when the text contains a single quote but no double quote) and
escape the backslash, the quote character and common control
characters. -/
def pyEscapeChar (quote : Char) (c : Char) : String :=
  if c = '\\' then "\\\\"
  else if c = quote then "\\" ++ String.singleton quote
  else if c = '\n' then "\\n"
  else if c = '\r' then "\\r"
  else if c = '\t' then "\\t"
  else String.singleton c

def pyReprStr (s : String) : String :=
  let quote : Char :=
    if s.data.contains '\'' && !s.data.contains '"' then '"' else '\''
  String.singleton quote ++ String.join (s.data.map (pyEscapeChar quote)) ++
    String.singleton quote

def joinWith (sep : String) : List String → String
  | [] => ""
  | [x] => x
  | x :: xs => x ++ sep ++ joinWith sep xs

mutual
/-- `repr` of a decoded JSON value (Python's `repr`). -/
def pyRepr : Json → String
  | .null => "None"
  | .bool true => "True"
  | .bool false => "False"
  | .num n => toString n
  | .str s => pyReprStr s
  | .arr xs => "[" ++ joinWith ", " (pyReprElems xs) ++ "]"
  | .obj fs => "\x7b" ++ joinWith ", " (pyReprFields fs) ++ "\x7d"

def pyReprElems : List Json → List String
  | [] => []
  | x :: xs => pyRepr x :: pyReprElems xs

def pyReprFields : List (String × Json) → List String
  | [] => []
  | (k, v) :: fs => (pyReprStr k ++ ": " ++ pyRepr v) :: pyReprFields fs
end

/-- `str` of a decoded JSON value (Python's `str`): identity on strings,
`repr` on containers, the usual renderings of scalars. -/
def pyStr : Json → String
  | .str s => s
  | j => pyRepr j

/-! ## Outbound side: session and envelope construction -/

/-- The mutable state of an `OpenFloorClient` object.  All three fields
are assigned in `__init__` and never reassigned anywhere in the
repository. -/
structure Session where
  speaker_uri : String
  service_url : String
  conversation_id : String
deriving Repr, DecidableEq

/-- `OpenFloorClient.__init__`: the two `uuid.uuid4().hex[:8]` draws are
passed in as `speakerHex` and `convHex`. -/
def OpenFloorClient.construct (speaker_uri_opt service_url_opt : Option String)
    (speakerHex convHex : String) : Session :=
  { speaker_uri := speaker_uri_opt.getD ("client:" ++ speakerHex)
  , service_url := service_url_opt.getD "http://localhost:3000/"
  , conversation_id := "conv_" ++ convHex }

/-- The envelope library's `Conversation` value: just an identifier. -/
structure Conversation where
  id : String
deriving Repr, DecidableEq

/-- Modelled from the spec: the envelope library's `Conversation()`
constructor (the `openfloor` package, outside this repository) is called
in `_create_envelope` with no arguments, so it assigns an identifier of
its own making, independent of the session; that library-generated
identifier is supplied here as `freshId`. -/
def Conversation.fresh (freshId : String) : Conversation := ⟨freshId⟩

/-- An outbound event, as built by `get_manifest` / `send_message` from
the envelope library's event classes. -/
inductive OutEvent where
  | getManifests (serviceUrl : String)
  | utterance (serviceUrl : String) (speakerUri : String) (textValues : List String)
deriving Repr, DecidableEq

/-- The outbound envelope: conversation reference, sender reference,
ordered event list. -/
structure Envelope where
  conversation : Conversation
  sender_speakerUri : String
  events : List OutEvent
deriving Repr, DecidableEq

/-- `OpenFloorClient._create_envelope`: builds `Conversation()` (no
argument — see `Conversation.fresh`), a `Sender` carrying
`self.speaker_uri`, and wraps the given events. -/
def create_envelope (sess : Session) (freshId : String) (events : List OutEvent) :
    Envelope :=
  { conversation := Conversation.fresh freshId
  , sender_speakerUri := sess.speaker_uri
  , events := events }

/-- The envelope `get_manifest` posts: one `GetManifestsEvent` addressed
to `agent_url`. -/
def get_manifest_request (sess : Session) (freshId agent_url : String) : Envelope :=
  create_envelope sess freshId [OutEvent.getManifests agent_url]

/-- The envelope `send_message` posts: one `UtteranceEvent` whose dialog
event carries the session's speaker URI and a text feature with the one
value `message`. -/
def send_message_request (sess : Session) (freshId agent_url message : String) :
    Envelope :=
  create_envelope sess freshId
    [OutEvent.utterance agent_url sess.speaker_uri [message]]

/-! ## Transport: `_send_envelope` -/

/-- Outcome of the blocking `requests.post` exchange (the HTTP client is
an external collaborator): either the request completed — `status` is
the final status code after the library's own redirect handling, and
the body is or is not JSON — or it failed at the network level, or it
timed out after the fixed 30-second budget. -/
inductive HttpOutcome where
  | completed (status : Nat) (body : Option Json)
  | networkFailure (msg : String)
  | timeout
deriving Repr

/-- The two failure kinds `_send_envelope` raises, distinguished by
their message prefix in the source (`"Network error: ..."` vs
`"Invalid JSON response: ..."`). -/
inductive ClientError where
  | transportError (msg : String)
  | malformedResponse (msg : String)
deriving Repr, DecidableEq

/-- `OpenFloorClient._send_envelope`: posts the envelope, then calls
`response.raise_for_status()`, which raises exactly for client-error
and server-error statuses (400–599); any other final status (1xx, 2xx,
or a 3xx the library did not consume by redirect handling) passes, and
the body is then decoded — a non-JSON body raises the
malformed-response error, otherwise the decoded JSON body is
returned.  Network failures and timeouts raise the transport error. -/
def send_envelope (_envelope : Envelope) : HttpOutcome → Except ClientError Json
  | .completed status body =>
    if 400 ≤ status ∧ status < 600 then
      .error (.transportError ("Network error: HTTP " ++ toString status))
    else
      match body with
      | some j => .ok j
      | none => .error (.malformedResponse "Invalid JSON response")
  | .networkFailure msg => .error (.transportError ("Network error: " ++ msg))
  | .timeout => .error (.transportError "Network error: timeout")

/-! ## Response parsing -/

/-- The sentinel `send_message` returns when its scan finds nothing. -/
def noResponseSentinel : Json := .str "Agent sent no response"

/-- Token-list concatenation from `send_message`'s second extraction
tier: `''.join(token.get('value', '') for token in tokens if 'value' in
token)`.  Tokens without a `value` key are skipped; a non-string
`value` (or a non-dict token) makes the join raise, modelled as
`none`. -/
def joinTokenList : List Json → Option String
  | [] => some ""
  | t :: rest => do
    let tfs ← t.asObj
    let tail ← joinTokenList rest
    match lookupField tfs "value" with
    | none => some tail
    | some (.str s) => some (s ++ tail)
    | some _ => none

/-- Third extraction tier: `str(text_feature.get('value', ''))`. -/
def tierValue (tfs : List (String × Json)) : Option Json :=
  some (.str (pyStr (getFieldD tfs "value" (.str ""))))

/-- Second extraction tier: `'tokens' in text_feature and
text_feature['tokens']`, falling through to `tierValue`. -/
def tierTokens (tfs : List (String × Json)) : Option Json :=
  match lookupField tfs "tokens" with
  | some ts =>
    if ts.truthy then
      match ts.asArr with
      | some tl => (joinTokenList tl).map Json.str
      | none => none
    else tierValue tfs
  | none => tierValue tfs

/-- The three-tier text extraction of `send_message` applied to a text
feature dict: `values` first, then `tokens`, then the bare `value`
field. -/
def tierExtract (tfs : List (String × Json)) : Option Json :=
  match lookupField tfs "values" with
  | some vs => if vs.truthy then pyIndex0 vs else tierTokens tfs
  | none => tierTokens tfs

/-- The body of `send_message`'s response loop for one event: `some
(some r)` when the iteration executes `return r`, `some none` when it
falls through to the next event (not tagged `utterance`, or the
extracted text is falsy), `none` when it raises. -/
def utteranceYield (event : Json) : Option (Option Json) := do
  let efs ← event.asObj
  match lookupField efs "eventType" with
  | some (.str tag) =>
    if tag = "utterance" then do
      let pfs ← (getFieldD efs "parameters" (.obj [])).asObj
      let dfs ← (getFieldD pfs "dialogEvent" (.obj [])).asObj
      let ffs ← (getFieldD dfs "features" (.obj [])).asObj
      let tfs ← (getFieldD ffs "text" (.obj [])).asObj
      let response_text ← tierExtract tfs
      if response_text.truthy then some (some response_text) else some none
    else some none
  | _ => some none

/-- The body of `get_manifest`'s response loop for one event: returns
the `servicingManifests` value when the event is tagged
`publishManifests` and that value is truthy, falls through (`some
none`) otherwise. -/
def manifestYield (event : Json) : Option (Option Json) := do
  let efs ← event.asObj
  match lookupField efs "eventType" with
  | some (.str tag) =>
    if tag = "publishManifests" then do
      let pfs ← (getFieldD efs "parameters" (.obj [])).asObj
      let manifests := getFieldD pfs "servicingManifests" (.arr [])
      if manifests.truthy then some (some manifests) else some none
    else some none
  | _ => some none

/-- The `for event in events:` scan shared by both operations: run
`yield` on each event in order; the first `return` wins; when every
iteration falls through, return the default (`[]` for `get_manifest`,
the sentinel for `send_message`); a raise aborts the scan. -/
def scanYield (yield : Json → Option (Option Json)) (dflt : Json) :
    List Json → Option Json
  | [] => some dflt
  | e :: rest => do
    match ← yield e with
    | some r => some r
    | none => scanYield yield dflt rest

/-- Response interpretation of `get_manifest` (lines 97–114): require
the `openFloor` wrapper (`none` result when absent — "Invalid response
format"), read `events` (default `[]`), scan for manifests. -/
def get_manifest_parse (response_data : Json) : Option Json := do
  let rfs ← response_data.asObj
  match lookupField rfs "openFloor" with
  | none => none
  | some envelope_data => do
    let efs ← envelope_data.asObj
    let evs ← (getFieldD efs "events" (.arr [])).asArr
    scanYield manifestYield (.arr []) evs

/-- Response interpretation of `send_message` (lines 150–178): same
wrapper check, scan for the first utterance whose extracted text is
truthy, sentinel otherwise. -/
def send_message_parse (response_data : Json) : Option Json := do
  let rfs ← response_data.asObj
  match lookupField rfs "openFloor" with
  | none => none
  | some envelope_data => do
    let efs ← envelope_data.asObj
    let evs ← (getFieldD efs "events" (.arr [])).asArr
    scanYield utteranceYield noResponseSentinel evs

/-! ## The two session operations -/

/-- `OpenFloorClient.get_manifest`: build and post the envelope, parse
the response; every exception raised inside is caught at the boundary
and becomes `none`.  The returned `Session` is the object state after
the call (the method assigns no attribute, so it is passed through). -/
def get_manifest (sess : Session) (freshId agent_url : String)
    (outcome : HttpOutcome) : Session × Option Json :=
  let envelope := get_manifest_request sess freshId agent_url
  (sess,
    match send_envelope envelope outcome with
    | .error _ => none
    | .ok response_data => get_manifest_parse response_data)

/-- `OpenFloorClient.send_message`: build and post the utterance
envelope, parse the response; exceptions become `none`; object state is
unchanged. -/
def send_message (sess : Session) (freshId agent_url message : String)
    (outcome : HttpOutcome) : Session × Option Json :=
  let envelope := send_message_request sess freshId agent_url message
  (sess,
    match send_envelope envelope outcome with
    | .error _ => none
    | .ok response_data => send_message_parse response_data)

/-! ## `format_manifest` -/

/-- `', '.join(xs)`: every element must be a string, otherwise the join
raises (`none`). -/
def joinStrings : List Json → Option (List String)
  | [] => some []
  | .str s :: rest => (joinStrings rest).map (s :: ·)
  | _ => none

/-- One iteration of the inner capability loop of `format_manifest`:
the keywords line and, when `descriptions` is truthy, the first
description line. -/
def formatCapability (j : Nat) (capability : Json) : Option (List String) := do
  let cfs ← capability.asObj
  let kps ← (getFieldD cfs "keyphrases" (.arr [])).asArr
  let kstrs ← joinStrings kps
  let keywordLine := "    " ++ toString (j + 1) ++ ". Keywords: " ++
    joinWith ", " kstrs
  let descriptions := getFieldD cfs "descriptions" (.arr [])
  if descriptions.truthy then do
    let d0 ← pyIndex0 descriptions
    some [keywordLine, "       Description: " ++ pyStr d0]
  else
    some [keywordLine]

def formatCapabilities (j : Nat) : List Json → Option (List String)
  | [] => some []
  | c :: rest => do
    let lines ← formatCapability j c
    let tail ← formatCapabilities (j + 1) rest
    some (lines ++ tail)

/-- One iteration of the outer loop of `format_manifest`: header line,
identification block (only when the `identification` value is truthy),
capabilities block (only when `capabilities` is truthy). -/
def formatManifestBlock (i : Nat) (manifest : Json) : Option (List String) := do
  let mfs ← manifest.asObj
  let header := "\n📋 Manifest " ++ toString (i + 1) ++ ":"
  let identification := getFieldD mfs "identification" (.obj [])
  let idLines ←
    if identification.truthy then do
      let ifs ← identification.asObj
      some
        [ "  Name: " ++ pyStr (getFieldD ifs "conversationalName" (.str "Unknown"))
        , "  Organization: " ++ pyStr (getFieldD ifs "organization" (.str "Unknown"))
        , "  Description: " ++ pyStr (getFieldD ifs "synopsis" (.str "No description"))
        , "  Speaker URI: " ++ pyStr (getFieldD ifs "speakerUri" (.str "Unknown")) ]
    else some []
  let capabilities := getFieldD mfs "capabilities" (.arr [])
  let capLines ←
    if capabilities.truthy then do
      let caps ← capabilities.asArr
      let lines ← formatCapabilities 0 caps
      some (("  Capabilities: " ++ toString caps.length) :: lines)
    else some []
  some (header :: (idLines ++ capLines))

def formatManifestBlocks (i : Nat) : List Json → Option (List String)
  | [] => some []
  | m :: rest => do
    let lines ← formatManifestBlock i m
    let tail ← formatManifestBlocks (i + 1) rest
    some (lines ++ tail)

/-- `OpenFloorClient.format_manifest`: the canonical string on a falsy
(empty) list, otherwise the numbered blocks joined by newlines.  This
method has no exception handler, so a raise inside it (modelled
`none`) propagates to the caller. -/
def format_manifest (manifests : List Json) : Option String :=
  if manifests.isEmpty then some "No manifests available"
  else do
    let lines ← formatManifestBlocks 0 manifests
    some (joinWith "\n" lines)

/-! ## Response builders (concrete test inputs for the theorems) -/

/-- A response envelope wrapping the given inbound events under the
`openFloor` key, as in the spec's wire format. -/
def mkResponse (events : List Json) : Json :=
  .obj [("openFloor", .obj [("events", .arr events)])]

/-- An inbound `publishManifests` event carrying the manifest list
`L`. -/
def publishManifestsEvent (L : List Json) : Json :=
  .obj [ ("eventType", .str "publishManifests")
       , ("parameters", .obj [("servicingManifests", .arr L)]) ]

/-- An inbound `utterance` event whose dialog event has the given text
feature dict. -/
def utteranceEventWith (textFeature : Json) : Json :=
  .obj [ ("eventType", .str "utterance")
       , ("parameters", .obj
           [("dialogEvent", .obj [("features", .obj [("text", textFeature)])])]) ]

/-- An inbound `utterance` event whose text feature is
`{"values": vs}`. -/
def utteranceValuesEvent (vs : List Json) : Json :=
  utteranceEventWith (.obj [("values", .arr vs)])

/-- The response the spec calls `wrap-as-values-response(m)`: one
utterance event with `values = [m]`. -/
def wrapValuesResponse (m : String) : Json :=
  mkResponse [utteranceValuesEvent [.str m]]

/-- The response the spec calls `wrap-as-response(L)`: one
`publishManifests` event carrying `L`. -/
def wrapManifestsResponse (L : List Json) : Json :=
  mkResponse [publishManifestsEvent L]

/-! ## Auxiliary predicates used in claim statements -/

/-- `event.get('eventType')`: the tag of an inbound event. -/
def eventTag (e : Json) : Option Json :=
  e.asObj.bind (fun fs => lookupField fs "eventType")

/-- Whether a response JSON has the top-level `openFloor` wrapper key
(`'openFloor' in response_data` on a dict; false on anything else). -/
def hasOpenFloorKey (j : Json) : Bool :=
  match j.asObj with
  | some fs => (lookupField fs "openFloor").isSome
  | none => false

/-- Whether the HTTP exchange failed in a way `_send_envelope` converts
to a transport error: a final status `raise_for_status` raises for
(400–599), a network-level failure, or a timeout. -/
def HttpOutcome.isTransportFailure : HttpOutcome → Prop
  | .completed status _ => 400 ≤ status ∧ status < 600
  | .networkFailure _ => True
  | .timeout => True

def charsStart : List Char → List Char → Bool
  | [], _ => true
  | _ :: _, [] => false
  | a :: as, b :: bs => a == b && charsStart as bs

def charsHas (needle : List Char) : List Char → Bool
  | [] => charsStart needle []
  | b :: bs => charsStart needle (b :: bs) || charsHas needle bs

/-- Substring test (Python's `needle in hay`). -/
def strContains (hay needle : String) : Bool :=
  charsHas needle.data hay.data

/-! ## Lemmas about the event scan -/

theorem scanYield_cons (y : Json → Option (Option Json)) (d : Json) (e : Json)
    (rest : List Json) :
    scanYield y d (e :: rest) =
      (y e).bind (fun o => match o with
        | some r => some r
        | none => scanYield y d rest) := rfl

/-- When every iteration of the loop falls through, the scan returns
the default. -/
theorem scanYield_of_all_skip (y : Json → Option (Option Json)) (d : Json) :
    ∀ evs, (∀ e ∈ evs, y e = some none) → scanYield y d evs = some d := by
  intro evs h
  induction evs with
  | nil => rfl
  | cons e rest ih =>
    rw [scanYield_cons, h e (List.mem_cons_self e rest)]
    simpa using ih (fun x hx => h x (List.mem_cons_of_mem e hx))

/-- A successful scan either fell through every event and returned the
default, or returned the value of the first event that yielded one,
with every earlier event falling through. -/
theorem scanYield_first (y : Json → Option (Option Json)) (d : Json) :
    ∀ evs r, scanYield y d evs = some r →
      ((∀ e ∈ evs, y e = some none) ∧ r = d) ∨
      ∃ l₁ e l₂, evs = l₁ ++ e :: l₂ ∧ (∀ x ∈ l₁, y x = some none) ∧
        y e = some (some r) := by
  intro evs
  induction evs with
  | nil =>
    intro r h
    left
    refine ⟨by simp, ?_⟩
    simpa [scanYield] using h.symm
  | cons e rest ih =>
    intro r h
    rw [scanYield_cons] at h
    rcases hy : y e with _ | o
    · rw [hy] at h; simp at h
    · rw [hy] at h
      rcases o with _ | v
      · have h' : scanYield y d rest = some r := by simpa using h
        rcases ih r h' with ⟨hall, hr⟩ | ⟨l₁, e', l₂, heq, hskip, hyield⟩
        · left
          refine ⟨?_, hr⟩
          intro x hx
          rcases List.mem_cons.1 hx with rfl | hx
          · exact hy
          · exact hall x hx
        · right
          refine ⟨e :: l₁, e', l₂, by rw [heq]; rfl, ?_, hyield⟩
          intro x hx
          rcases List.mem_cons.1 hx with rfl | hx
          · exact hy
          · exact hskip x hx
      · have hv : v = r := by simpa using h
        right
        exact ⟨[], e, rest, rfl, by simp, by rw [hy, hv]⟩

/-- Any text `send_message`'s loop actually returns passed the
`if response_text:` guard, so it is truthy. -/
theorem utteranceYield_truthy (e r : Json) (h : utteranceYield e = some (some r)) :
    r.truthy = true := by
  unfold utteranceYield at h
  rcases e with _ | b | n | s | xs | fs <;> simp [Json.asObj] at h
  split at h
  next tag htag =>
    split at h
    next =>
      simp only [Option.bind_eq_some] at h
      obtain ⟨pfs, hpfs, h⟩ := h
      obtain ⟨dfs, hdfs, h⟩ := h
      obtain ⟨ffs, hffs, h⟩ := h
      obtain ⟨tfs, htfs, h⟩ := h
      obtain ⟨rt, hrt, h⟩ := h
      split at h
      next ht => cases h; exact ht
      next => simp at h
    next => simp at h
  next => simp at h

/-- The loop of `send_message` only returns text taken from an event
tagged `utterance`. -/
theorem utteranceYield_tagged (e r : Json) (h : utteranceYield e = some (some r)) :
    eventTag e = some (.str "utterance") := by
  unfold utteranceYield at h
  rcases e with _ | b | n | s | xs | fs <;> simp [Json.asObj] at h
  unfold eventTag
  simp only [Json.asObj, Option.some_bind]
  split at h
  next tag htag =>
    split at h
    next htag2 => rw [htag, htag2]
    next => simp at h
  next h' => exact absurd h (by simp)

/-- The loop of `get_manifest` only returns a manifest list taken from
an event tagged `publishManifests`, and only a truthy (non-empty)
one. -/
theorem manifestYield_tagged (e r : Json) (h : manifestYield e = some (some r)) :
    eventTag e = some (.str "publishManifests") ∧ r.truthy = true := by
  unfold manifestYield at h
  rcases e with _ | b | n | s | xs | fs <;> simp [Json.asObj] at h
  unfold eventTag
  simp only [Json.asObj, Option.some_bind]
  split at h
  next tag htag =>
    split at h
    next htag2 =>
      simp only [Option.bind_eq_some] at h
      obtain ⟨pfs, hpfs, h⟩ := h
      split at h
      next ht => cases h; exact ⟨by rw [htag, htag2], ht⟩
      next => simp at h
    next => simp at h
  next => simp at h

/-- A successful `send_message` parse went through the `openFloor`
wrapper and the event scan. -/
theorem send_message_parse_scan (resp r : Json)
    (h : send_message_parse resp = some r) :
    ∃ evs, scanYield utteranceYield noResponseSentinel evs = some r := by
  unfold send_message_parse at h
  rcases resp with _ | b | n | s | xs | rfs <;> simp [Json.asObj] at h
  rcases hlk : lookupField rfs "openFloor" with _ | env
  · rw [hlk] at h; simp at h
  · rw [hlk] at h
    simp only [Option.bind_eq_some] at h
    obtain ⟨efs, hefs, h⟩ := h
    obtain ⟨evs, hevs, h⟩ := h
    exact ⟨evs, h⟩

/-! ## Claim theorems -/

/-- Claim C1 (code bug witness): the conversation identifier an
outbound envelope carries is exactly the `freshId` the envelope
library's `Conversation()` constructor generated — `_create_envelope`
never passes `self.conversation_id` — so for a concrete session whose
`conversation_id` is `conv_ab12cd34` and a concrete library-generated
identifier, the posted envelope does not carry the session's
conversation identifier. -/
theorem c1_envelope_conversation_id (sess : Session)
    (freshId agent_url message : String) :
    ((get_manifest_request sess freshId agent_url).conversation.id = freshId ∧
     (send_message_request sess freshId agent_url message).conversation.id = freshId) ∧
    (get_manifest_request (OpenFloorClient.construct none none "3f9a1c2b" "ab12cd34")
        "conv:7e4d9b1a" "http://agent.example/").conversation.id ≠
      (OpenFloorClient.construct none none "3f9a1c2b" "ab12cd34").conversation_id := by
  exact ⟨⟨rfl, rfl⟩, by decide⟩

/-- Claim C2 (counterexample): a response whose event list contains an
`utterance`-tagged event (here one with an empty text feature, whose
extracted text is `""`) still makes `send_message` return the sentinel
`"Agent sent no response"` — so the sentinel is not returned exactly
when no utterance-tagged event exists. -/
theorem c2_counterexample :
    eventTag (utteranceEventWith (.obj [])) = some (.str "utterance") ∧
    send_message_parse (mkResponse [utteranceEventWith (.obj [])]) =
      some noResponseSentinel :=
  ⟨rfl, rfl⟩

/-- Claim C2 (amended): `send_message` returns the sentinel whenever
every event falls through the loop (`utteranceYield e = some none`:
the event is not tagged `utterance`, or its extracted text is falsy);
and every successful result either is the sentinel with all events
falling through, or is the yield of the first event that yields a
truthy text, every earlier event falling through; moreover any yielded
text comes from an `utterance`-tagged event. -/
theorem c2_sentinel_and_first_truthy :
    (∀ evs : List Json, (∀ e ∈ evs, utteranceYield e = some none) →
      send_message_parse (mkResponse evs) = some noResponseSentinel) ∧
    (∀ (evs : List Json) (r : Json), send_message_parse (mkResponse evs) = some r →
      ((∀ e ∈ evs, utteranceYield e = some none) ∧ r = noResponseSentinel) ∨
      ∃ l₁ e l₂, evs = l₁ ++ e :: l₂ ∧ (∀ x ∈ l₁, utteranceYield x = some none) ∧
        utteranceYield e = some (some r)) ∧
    (∀ e r : Json, utteranceYield e = some (some r) →
      eventTag e = some (.str "utterance")) := by
  refine ⟨?_, ?_, utteranceYield_tagged⟩
  · intro evs h
    have hlink : send_message_parse (mkResponse evs) =
        scanYield utteranceYield noResponseSentinel evs := rfl
    rw [hlink]
    exact scanYield_of_all_skip _ _ evs h
  · intro evs r h
    have hs : scanYield utteranceYield noResponseSentinel evs = some r := h
    exact scanYield_first _ _ evs r hs

/-- Closed instance of the amended C2 theorem: on a response whose
first utterance event has an empty text feature and whose second
carries `values = ["hi"]`, the parse returns `"hi"`, and the
characterization applies. -/
theorem c2_witness :
    ((∀ e ∈ [utteranceEventWith (.obj []), utteranceValuesEvent [.str "hi"]],
        utteranceYield e = some none) ∧ Json.str "hi" = noResponseSentinel) ∨
    ∃ l₁ e l₂,
      [utteranceEventWith (.obj []), utteranceValuesEvent [.str "hi"]] =
        l₁ ++ e :: l₂ ∧
      (∀ x ∈ l₁, utteranceYield x = some none) ∧
      utteranceYield e = some (some (Json.str "hi")) :=
  c2_sentinel_and_first_truthy.2.1
    [utteranceEventWith (.obj []), utteranceValuesEvent [.str "hi"]]
    (Json.str "hi") rfl

/-- Claim C3 (counterexample): when the first `publishManifests`-tagged
event carries an empty manifest list and a later one carries `["m"]`,
`get_manifest` returns `["m"]`, not the (empty) list of the first
tagged event. -/
theorem c3_counterexample :
    eventTag (publishManifestsEvent []) = some (.str "publishManifests") ∧
    get_manifest_parse
        (mkResponse [publishManifestsEvent [], publishManifestsEvent [.str "m"]]) =
      some (.arr [.str "m"]) ∧
    Json.arr [.str "m"] ≠ Json.arr [] :=
  ⟨rfl, rfl, by simp⟩

/-- Claim C3 (amended): the round trip holds for every manifest list
`L` (including `[]`): extracting from a response that wraps `L` as a
single `publishManifests` event yields exactly `L`; and in general a
successful `get_manifest` parse returns either `[]` with every event
falling through (no `publishManifests` event with a truthy list), or
the list of the first event yielding a truthy manifest list — and any
yielded list comes from a `publishManifests`-tagged event and is
non-empty. -/
theorem c3_roundtrip_and_first_nonempty :
    (∀ L : List Json, get_manifest_parse (wrapManifestsResponse L) = some (.arr L)) ∧
    (∀ (evs : List Json) (r : Json), get_manifest_parse (mkResponse evs) = some r →
      ((∀ e ∈ evs, manifestYield e = some none) ∧ r = Json.arr []) ∨
      ∃ l₁ e l₂, evs = l₁ ++ e :: l₂ ∧ (∀ x ∈ l₁, manifestYield x = some none) ∧
        manifestYield e = some (some r)) ∧
    (∀ e r : Json, manifestYield e = some (some r) →
      eventTag e = some (.str "publishManifests") ∧ r.truthy = true) := by
  refine ⟨?_, ?_, manifestYield_tagged⟩
  · intro L
    cases L <;> rfl
  · intro evs r h
    have hs : scanYield manifestYield (Json.arr []) evs = some r := h
    exact scanYield_first _ _ evs r hs

/-- Closed instance of the amended C3 theorem at the counterexample
input. -/
theorem c3_witness :
    ((∀ e ∈ [publishManifestsEvent [], publishManifestsEvent [.str "m"]],
        manifestYield e = some none) ∧ Json.arr [.str "m"] = Json.arr []) ∨
    ∃ l₁ e l₂,
      [publishManifestsEvent [], publishManifestsEvent [.str "m"]] = l₁ ++ e :: l₂ ∧
      (∀ x ∈ l₁, manifestYield x = some none) ∧
      manifestYield e = some (some (Json.arr [.str "m"])) :=
  c3_roundtrip_and_first_nonempty.2.1
    [publishManifestsEvent [], publishManifestsEvent [.str "m"]]
    (Json.arr [.str "m"]) rfl

/-- Claim C4 (counterexample): for one manifest dictionary with no
`identification` block, `format_manifest` returns only the header line
— the output contains neither the default label `"Unknown"` nor
`"No description"` (the `if identification:` guard skips the whole
identification block), contradicting the claim that the default labels
appear in place of the absent fields. -/
theorem c4_counterexample :
    format_manifest [Json.obj []] = some "\n📋 Manifest 1:" ∧
    strContains "\n📋 Manifest 1:" "Unknown" = false ∧
    strContains "\n📋 Manifest 1:" "No description" = false :=
  ⟨rfl, by decide, by decide⟩

/-- Claim C4 (amended): `format_manifest []` returns the canonical
"no manifests" string; a manifest with no `identification` block
renders only its header line, without failing (identification lines
are omitted entirely rather than filled with defaults); the default
labels `"Unknown"` / `"No description"` appear only when the
`identification` block is present and non-empty but individual fields
are absent. -/
theorem c4_formatting :
    format_manifest [] = some "No manifests available" ∧
    format_manifest [Json.obj []] = some "\n📋 Manifest 1:" ∧
    format_manifest
        [Json.obj [("identification", Json.obj [("organization", Json.str "Acme")])]] =
      some ("\n📋 Manifest 1:" ++ "\n  Name: Unknown" ++ "\n  Organization: Acme" ++
        "\n  Description: No description" ++ "\n  Speaker URI: Unknown") :=
  ⟨rfl, rfl, rfl⟩

/-- Claim C5: for every non-empty message string `m`, parsing a
response whose first utterance-tagged event carries a text feature
with `values = [m]` returns exactly `m`. -/
theorem c5_values_roundtrip (m : String) (h : m ≠ "") :
    send_message_parse (wrapValuesResponse m) = some (.str m) := by
  have hie : m.isEmpty = false :=
    Bool.eq_false_iff.mpr fun hc => h ((String.isEmpty_iff m).mp hc)
  have ht : (Json.str m).truthy = true := by simp [Json.truthy, hie]
  have hy : utteranceYield (utteranceValuesEvent [.str m]) =
      some (some (Json.str m)) := by
    have e1 : utteranceYield (utteranceValuesEvent [.str m]) =
        if (Json.str m).truthy then some (some (Json.str m)) else some none := rfl
    rw [e1, ht]
    simp
  have e2 : send_message_parse (wrapValuesResponse m) =
      scanYield utteranceYield noResponseSentinel [utteranceValuesEvent [.str m]] := rfl
  rw [e2, scanYield_cons, hy]
  rfl

/-- Closed instance of C5 at `m = "hello"`. -/
theorem c5_witness :
    send_message_parse (wrapValuesResponse "hello") = some (.str "hello") :=
  c5_values_roundtrip "hello" (by decide)

/-- Claim C6: the three extraction tiers are tried in the fixed order
`values`, `tokens`, bare `value`, and the first matching tier wins:
a truthy `values` entry shadows everything after it; with no `values`
key, a non-empty `tokens` list shadows the `value` field; the
token-only response `tokens = [{value: "a"}, {value: "b"}]` yields the
separator-free concatenation `"ab"`; tokens lacking a `value`
sub-field are skipped; with neither `values` nor `tokens`, the bare
`value` field is coerced to a string (empty when absent). -/
theorem c6_three_tier :
    (send_message_parse (mkResponse [utteranceEventWith (.obj [("tokens",
        .arr [.obj [("value", .str "a")], .obj [("value", .str "b")]])])]) =
      some (.str "ab")) ∧
    (send_message_parse (mkResponse [utteranceEventWith (.obj [("tokens",
        .arr [.obj [("value", .str "a")], .obj [], .obj [("value", .str "b")]])])]) =
      some (.str "ab")) ∧
    (∀ (vs : Json) (rest : List (String × Json)), vs.truthy = true →
      tierExtract (("values", vs) :: rest) = pyIndex0 vs) ∧
    (∀ (tl : List Json) (v : Json), tl ≠ [] →
      tierExtract [("tokens", .arr tl), ("value", v)] =
        (joinTokenList tl).map Json.str) ∧
    (∀ v : Json, tierExtract [("value", v)] = some (.str (pyStr v))) ∧
    (tierExtract [] = some (.str "")) := by
  refine ⟨rfl, rfl, ?_, ?_, fun v => rfl, rfl⟩
  · intro vs rest h
    have e : tierExtract (("values", vs) :: rest) =
        if vs.truthy then pyIndex0 vs else tierTokens (("values", vs) :: rest) := rfl
    rw [e, h]
    simp
  · intro tl v h
    cases tl with
    | nil => exact absurd rfl h
    | cons t ts => rfl

/-- Closed instance of the C6 priority statements: a truthy `values`
entry wins over a present `tokens` entry, and a non-empty `tokens`
entry wins over a present `value` field. -/
theorem c6_witness :
    tierExtract [("values", .arr [.str "x"]),
        ("tokens", .arr [.obj [("value", .str "t")]])] =
      pyIndex0 (.arr [.str "x"]) ∧
    tierExtract [("tokens", .arr [.obj [("value", .str "a")]]), ("value", .str "zzz")] =
      (joinTokenList [.obj [("value", .str "a")]]).map Json.str :=
  ⟨c6_three_tier.2.2.1 (.arr [.str "x"])
      [("tokens", .arr [.obj [("value", .str "t")]])] rfl,
    c6_three_tier.2.2.2.1 [.obj [("value", .str "a")]] (.str "zzz") (by simp)⟩

/-- Claim C7: on a response without the top-level `openFloor` wrapper
key, both parses — and both full session operations on a 2xx exchange
delivering such a body — return `none`, and `none` is distinct from
the benign outcomes (any manifest list, in particular the empty one,
and the sentinel string). -/
theorem c7_missing_wrapper (resp : Json) (h : hasOpenFloorKey resp = false)
    (sess : Session) (freshId agent_url message : String) :
    get_manifest_parse resp = none ∧ send_message_parse resp = none ∧
    (get_manifest sess freshId agent_url (.completed 200 (some resp))).2 = none ∧
    (send_message sess freshId agent_url message (.completed 200 (some resp))).2 = none ∧
    (∀ L : List Json, (none : Option Json) ≠ some (.arr L)) ∧
    ((none : Option Json) ≠ some noResponseSentinel) := by
  have hp : get_manifest_parse resp = none ∧ send_message_parse resp = none := by
    rcases resp with _ | b | n | s | xs | rfs
    · exact ⟨rfl, rfl⟩
    · exact ⟨rfl, rfl⟩
    · exact ⟨rfl, rfl⟩
    · exact ⟨rfl, rfl⟩
    · exact ⟨rfl, rfl⟩
    · rcases hlk : lookupField rfs "openFloor" with _ | v
      · constructor
        · unfold get_manifest_parse
          simp [Json.asObj, hlk]
        · unfold send_message_parse
          simp [Json.asObj, hlk]
      · exfalso
        unfold hasOpenFloorKey at h
        simp [Json.asObj, hlk] at h
  have hg : (get_manifest sess freshId agent_url (.completed 200 (some resp))).2 =
      get_manifest_parse resp := rfl
  have hm : (send_message sess freshId agent_url message
      (.completed 200 (some resp))).2 = send_message_parse resp := rfl
  refine ⟨hp.1, hp.2, by rw [hg, hp.1], by rw [hm, hp.2], ?_, ?_⟩
  · intro L h'
    cases h'
  · intro h'
    cases h'

/-- Closed instance of C7 at the wrapper-less response `{}`. -/
theorem c7_witness :
    get_manifest_parse (.obj []) = none ∧ send_message_parse (.obj []) = none ∧
    (get_manifest ⟨"client:3f9a1c2b", "http://localhost:3000/", "conv_ab12cd34"⟩
        "conv:7e4d9b1a" "http://agent.example/"
        (.completed 200 (some (.obj [])))).2 = none ∧
    (send_message ⟨"client:3f9a1c2b", "http://localhost:3000/", "conv_ab12cd34"⟩
        "conv:7e4d9b1a" "http://agent.example/" "hello"
        (.completed 200 (some (.obj [])))).2 = none ∧
    (∀ L : List Json, (none : Option Json) ≠ some (.arr L)) ∧
    ((none : Option Json) ≠ some noResponseSentinel) :=
  c7_missing_wrapper (.obj []) rfl
    ⟨"client:3f9a1c2b", "http://localhost:3000/", "conv_ab12cd34"⟩
    "conv:7e4d9b1a" "http://agent.example/" "hello"

/-- Claim C8 (counterexample): a final 304 status is non-2xx, yet
`raise_for_status` raises only for 400–599 — so the exchange does not
fail, and with a JSON `openFloor` body the operation parses it
normally and returns a non-`None` result, refuting "every non-2xx
exchange raises a TransportError and the operation returns None". -/
theorem c8_counterexample :
    ¬(200 ≤ 304 ∧ 304 < 300) ∧
    send_envelope
        (send_message_request
          ⟨"client:3f9a1c2b", "http://localhost:3000/", "conv_ab12cd34"⟩
          "conv:7e4d9b1a" "http://agent.example/" "hello")
        (.completed 304 (some (wrapValuesResponse "hi"))) =
      .ok (wrapValuesResponse "hi") ∧
    (send_message ⟨"client:3f9a1c2b", "http://localhost:3000/", "conv_ab12cd34"⟩
        "conv:7e4d9b1a" "http://agent.example/" "hello"
        (.completed 304 (some (wrapValuesResponse "hi")))).2 = some (.str "hi") ∧
    (some (Json.str "hi") : Option Json) ≠ none :=
  ⟨by omega, rfl, rfl, fun h => Option.noConfusion h⟩

/-- Claim C8 (amended): every HTTP exchange that fails — a final
status in 400–599 (exactly the statuses `raise_for_status` raises
for), a network failure, or a timeout — makes `_send_envelope` raise a
transport error, and the enclosing operations catch it and return
`none`; in this embedding the operations are total functions into
`Option`, so no exception escapes them.  (A final non-2xx status
outside 400–599, i.e. a 3xx left by redirect handling, does not raise:
its body is processed normally, see the counterexample.) -/
theorem c8_transport_failure (sess : Session) (freshId agent_url message : String)
    (o : HttpOutcome) (h : o.isTransportFailure) :
    (∃ msg, ∀ env : Envelope, send_envelope env o = .error (.transportError msg)) ∧
    (get_manifest sess freshId agent_url o).2 = none ∧
    (send_message sess freshId agent_url message o).2 = none := by
  rcases o with ⟨status, body⟩ | msg | _
  · have h' : 400 ≤ status ∧ status < 600 := h
    have he : ∀ env : Envelope, send_envelope env (.completed status body) =
        .error (.transportError ("Network error: HTTP " ++ toString status)) := by
      intro env
      rcases body with _ | j
      · show (if 400 ≤ status ∧ status < 600 then
              (Except.error
                (ClientError.transportError
                  ("Network error: HTTP " ++ toString status)) :
                Except ClientError Json)
            else Except.error
              (ClientError.malformedResponse "Invalid JSON response")) =
          Except.error
            (ClientError.transportError ("Network error: HTTP " ++ toString status))
        rw [if_pos h']
      · show (if 400 ≤ status ∧ status < 600 then
              (Except.error
                (ClientError.transportError
                  ("Network error: HTTP " ++ toString status)) :
                Except ClientError Json)
            else Except.ok j) =
          Except.error
            (ClientError.transportError ("Network error: HTTP " ++ toString status))
        rw [if_pos h']
    refine ⟨⟨_, he⟩, ?_, ?_⟩
    · simp [get_manifest, he]
    · simp [send_message, he]
  · exact ⟨⟨"Network error: " ++ msg, fun env => rfl⟩, rfl, rfl⟩
  · exact ⟨⟨"Network error: timeout", fun env => rfl⟩, rfl, rfl⟩

/-- Closed instance of C8 at a 404 response. -/
theorem c8_witness :
    (∃ msg, ∀ env : Envelope,
      send_envelope env (.completed 404 (some (.obj []))) =
        .error (.transportError msg)) ∧
    (get_manifest ⟨"client:3f9a1c2b", "http://localhost:3000/", "conv_ab12cd34"⟩
        "conv:7e4d9b1a" "http://agent.example/"
        (.completed 404 (some (.obj [])))).2 = none ∧
    (send_message ⟨"client:3f9a1c2b", "http://localhost:3000/", "conv_ab12cd34"⟩
        "conv:7e4d9b1a" "http://agent.example/" "hello"
        (.completed 404 (some (.obj [])))).2 = none :=
  c8_transport_failure
    ⟨"client:3f9a1c2b", "http://localhost:3000/", "conv_ab12cd34"⟩
    "conv:7e4d9b1a" "http://agent.example/" "hello"
    (.completed 404 (some (.obj [])))
    (by show 400 ≤ 404 ∧ 404 < 600; omega)

/-- Claim C9: neither operation changes the session's identity fields:
the object state returned by `get_manifest` and `send_message` equals
the input state, whatever the exchange outcome (success or any
failure). -/
theorem c9_session_unchanged (sess : Session) (freshId agent_url message : String)
    (o o' : HttpOutcome) :
    (get_manifest sess freshId agent_url o).1 = sess ∧
    (send_message sess freshId agent_url message o').1 = sess :=
  ⟨rfl, rfl⟩

/-- Claim C10 (counterexample): when the utterance's `values` list
holds the number `42`, `send_message` returns that raw JSON number —
a non-`None` result that is not a string at all, refuting "every
non-None result is a non-empty string". -/
theorem c10_counterexample :
    send_message_parse (mkResponse [utteranceValuesEvent [.num 42]]) =
      some (.num 42) ∧
    ∀ s : String, Json.num 42 ≠ Json.str s :=
  ⟨rfl, fun _ h => Json.noConfusion h⟩

/-- Claim C10 (amended): every non-`None` result of `send_message`'s
response interpretation is Python-truthy — in particular it is never
the empty string, even when an utterance event with a falsy extracted
text is present. -/
theorem c10_result_truthy (resp r : Json) (h : send_message_parse resp = some r) :
    r.truthy = true ∧ r ≠ Json.str "" := by
  obtain ⟨evs, hscan⟩ := send_message_parse_scan resp r h
  have ht : r.truthy = true := by
    rcases scanYield_first _ _ evs r hscan with ⟨_, rfl⟩ | ⟨l₁, e, l₂, _, _, hy⟩
    · rfl
    · exact utteranceYield_truthy e r hy
  refine ⟨ht, ?_⟩
  intro hr
  rw [hr] at ht
  exact absurd ht (by decide)

/-- Closed instance of the amended C10 theorem: the sentinel result of
an empty event list is truthy and not the empty string. -/
theorem c10_witness :
    noResponseSentinel.truthy = true ∧ noResponseSentinel ≠ Json.str "" :=
  c10_result_truthy (mkResponse []) noResponseSentinel rfl
